import Mathlib

/-!
Verification development for the OpenSSH v1 private-key codec of the
rust-osshkeys repository.  The definitions below are a shallow embedding of
`src/format/ossh_privkey.rs` (functions `decode_ossh_priv` and
`decrypt_ossh_priv`) together with the error taxonomy of `src/error.rs`.
Byte strings are modelled as `List Nat` (each element a byte value).  The
wire codec (`sshbuf` module, not present in the source tree) is modelled
from the specification, RFC 4251 §5.  External cryptographic collaborators
(openssl ciphers, bcrypt_pbkdf, key constructors) are abstracted as
function parameters gathered in the `External` structure; cipher geometry
(key/IV/block sizes) follows the specification's cipher table.
-/

namespace Osshkeys

/-- Byte values of an ASCII string literal. -/
def ascii (s : String) : List Nat := s.data.map Char.toNat

instance {ε α : Type} [DecidableEq ε] [DecidableEq α] : DecidableEq (Except ε α) :=
  fun x y =>
    match x, y with
    | .ok a, .ok b => if h : a = b then .isTrue (by rw [h]) else .isFalse (by simp [h])
    | .error a, .error b => if h : a = b then .isTrue (by rw [h]) else .isFalse (by simp [h])
    | .ok _, .error _ => .isFalse (by simp)
    | .error _, .ok _ => .isFalse (by simp)

/-- Error kinds, transcribed from the `ErrorKind` enum of `src/error.rs`. -/
inductive ErrorKind where
  | OpenSslError
  | Ed25519Error
  | IOError
  | FmtError
  | Base64Error
  | InvalidArgument
  | InvalidKeyFormat
  | InvalidFormat
  | InvalidKey
  | InvalidKeySize
  | InvalidLength
  | UnsupportCurve
  | UnsupportCipher
  | IncorrectPass
  | TypeNotMatch
  | UnsupportType
  | InvalidPemFormat
  | InvalidKeyIvLength
  | Unknown
  deriving DecidableEq, Repr

/-- Wire-codec failures.  Modelled from the spec: §4.1 failure conditions of
the `sshbuf` module (missing from the source tree): a short read or a length
field exceeding the remaining bytes, and a non-UTF-8 body where UTF-8 was
requested.  Both map to `InvalidFormat`. -/
inductive WErr where
  | shortRead
  | badUtf8
  deriving DecidableEq, Repr

/-- Error kind carried by a wire-codec failure (spec §4.1: `InvalidFormat`). -/
def WErr.kind : WErr → ErrorKind
  | .shortRead => .InvalidFormat
  | .badUtf8 => .InvalidFormat

/-- Modelled from the spec: `read_uint32` of the `sshbuf` module (missing from
the source tree): a big-endian 32-bit integer, four bytes consumed from the
front of the stream. -/
def readUint32 : List Nat → Except WErr (Nat × List Nat)
  | b0 :: b1 :: b2 :: b3 :: rest =>
    .ok ((((b0 * 256 + b1) * 256 + b2) * 256 + b3), rest)
  | _ => .error .shortRead

/-- Modelled from the spec: `read_string` of the `sshbuf` module (missing from
the source tree): a `uint32` length prefix followed by exactly that many
bytes. -/
def readString (l : List Nat) : Except WErr (List Nat × List Nat) :=
  match readUint32 l with
  | .error e => .error e
  | .ok (len, rest) =>
    if rest.length < len then .error .shortRead
    else .ok (rest.take len, rest.drop len)

/-- Whether a byte is a UTF-8 continuation byte (`0x80..0xBF`). -/
def isCont (b : Nat) : Bool := 0x80 ≤ b && b ≤ 0xBF

/-- UTF-8 validity of a byte sequence (the check performed by
`String::from_utf8` in `read_utf8`). -/
def isUtf8 : List Nat → Bool
  | [] => true
  | b :: rest =>
    if b ≤ 0x7F then isUtf8 rest
    else if 0xC2 ≤ b ∧ b ≤ 0xDF then
      match rest with
      | c1 :: r => isCont c1 && isUtf8 r
      | [] => false
    else if b = 0xE0 then
      match rest with
      | c1 :: c2 :: r => (0xA0 ≤ c1 && c1 ≤ 0xBF) && isCont c2 && isUtf8 r
      | _ => false
    else if 0xE1 ≤ b ∧ b ≤ 0xEC then
      match rest with
      | c1 :: c2 :: r => isCont c1 && isCont c2 && isUtf8 r
      | _ => false
    else if b = 0xED then
      match rest with
      | c1 :: c2 :: r => (0x80 ≤ c1 && c1 ≤ 0x9F) && isCont c2 && isUtf8 r
      | _ => false
    else if 0xEE ≤ b ∧ b ≤ 0xEF then
      match rest with
      | c1 :: c2 :: r => isCont c1 && isCont c2 && isUtf8 r
      | _ => false
    else if b = 0xF0 then
      match rest with
      | c1 :: c2 :: c3 :: r =>
        (0x90 ≤ c1 && c1 ≤ 0xBF) && isCont c2 && isCont c3 && isUtf8 r
      | _ => false
    else if 0xF1 ≤ b ∧ b ≤ 0xF3 then
      match rest with
      | c1 :: c2 :: c3 :: r => isCont c1 && isCont c2 && isCont c3 && isUtf8 r
      | _ => false
    else if b = 0xF4 then
      match rest with
      | c1 :: c2 :: c3 :: r =>
        (0x80 ≤ c1 && c1 ≤ 0x8F) && isCont c2 && isCont c3 && isUtf8 r
      | _ => false
    else false

/-- Modelled from the spec: `read_utf8` of the `sshbuf` module (missing from
the source tree): identical framing to `read_string`, body must be valid
UTF-8. -/
def readUtf8 (l : List Nat) : Except WErr (List Nat × List Nat) :=
  match readString l with
  | .error e => .error e
  | .ok (s, rest) => if isUtf8 s then .ok (s, rest) else .error .badUtf8

/-- Modelled from the spec: `read_mpint` of the `sshbuf` module (missing from
the source tree) uses the same length-prefixed framing as `read_string`; the
decoder only stores the magnitude bytes, so the value interpretation is not
modelled. -/
def readMpint (l : List Nat) : Except WErr (List Nat × List Nat) :=
  readString l

/-- Symmetric cipher algorithms selected by `decrypt_ossh_priv` (the openssl
`Cipher` values of lines 117-127 of `ossh_privkey.rs`). -/
inductive CipherAlg where
  | desEde3Cbc
  | aes128Cbc
  | aes192Cbc
  | aes256Cbc
  | aes128Ctr
  | aes192Ctr
  | aes256Ctr
  deriving DecidableEq, Repr

/-- Modelled from the spec: key length in bytes of each cipher (§4.3 table);
the source obtains it from openssl's `Cipher::key_len`. -/
def CipherAlg.keyLen : CipherAlg → Nat
  | .desEde3Cbc => 24
  | .aes128Cbc => 16
  | .aes192Cbc => 24
  | .aes256Cbc => 32
  | .aes128Ctr => 16
  | .aes192Ctr => 24
  | .aes256Ctr => 32

/-- Modelled from the spec: IV length in bytes of each cipher (§4.3 table);
the source obtains it from openssl's `Cipher::iv_len().unwrap_or(0)`. -/
def CipherAlg.ivLen : CipherAlg → Nat
  | .desEde3Cbc => 8
  | _ => 16

/-- Modelled from the spec: block size in bytes of each cipher (§4.3 table);
the source obtains it from openssl's `Cipher::block_size`. -/
def CipherAlg.blockSize : CipherAlg → Nat
  | .desEde3Cbc => 8
  | _ => 16

/-- The cipher-name table of `decrypt_ossh_priv` (lines 117-127): `.ok none`
is the `"none"` cipher, `.error ()` is the `UnsupportCipher` arm. -/
def cipherOfName (name : List Nat) : Except Unit (Option CipherAlg) :=
  if name = ascii "3des-cbc" then .ok (some .desEde3Cbc)
  else if name = ascii "aes128-cbc" then .ok (some .aes128Cbc)
  else if name = ascii "aes192-cbc" then .ok (some .aes192Cbc)
  else if name = ascii "aes256-cbc" ∨ name = ascii "rijndael-cbc@lysator.liu.se" then
    .ok (some .aes256Cbc)
  else if name = ascii "aes128-ctr" then .ok (some .aes128Ctr)
  else if name = ascii "aes192-ctr" then .ok (some .aes192Ctr)
  else if name = ascii "aes256-ctr" then .ok (some .aes256Ctr)
  else if name = ascii "none" then .ok none
  else .error ()

/-- The nine cipher names accepted by the table of `decrypt_ossh_priv`. -/
def supportedCipherNames : List (List Nat) :=
  [ascii "none", ascii "3des-cbc", ascii "aes128-cbc", ascii "aes192-cbc",
   ascii "aes256-cbc", ascii "rijndael-cbc@lysator.liu.se",
   ascii "aes128-ctr", ascii "aes192-ctr", ascii "aes256-ctr"]

/-- The `passphrase.map_or(false, |pass| !pass.is_empty())` test of line 130:
true exactly when a passphrase is supplied and non-empty. -/
def passHasContent : Option (List Nat) → Bool
  | none => false
  | some p => !p.isEmpty

/-- The `cipher.map_or(8, |c| c.block_size())` of line 142. -/
def blockOf : Option CipherAlg → Nat
  | none => 8
  | some c => c.blockSize

/-- RSA signature hash variants (`RsaSignature` of the `keys::rsa` module). -/
inductive RsaSig where
  | sha1
  | sha256
  | sha512
  deriving DecidableEq, Repr

/-- Modelled from the spec: the NIST curves of the ECDSA keys (§4.4). -/
inductive EcCurve where
  | nistp256
  | nistp384
  | nistp521
  deriving DecidableEq, Repr

/-- Modelled from the spec: `EcCurve::from_name` of the `keys::ecdsa` module
(missing from the source tree), mapping the outer algorithm name
`ecdsa-sha2-nistp{256,384,521}` to the curve it implies; unknown names fail
with `UnsupportCurve`. -/
def EcCurve.fromName (name : List Nat) : Except Unit EcCurve :=
  if name = ascii "ecdsa-sha2-nistp256" then .ok .nistp256
  else if name = ascii "ecdsa-sha2-nistp384" then .ok .nistp384
  else if name = ascii "ecdsa-sha2-nistp521" then .ok .nistp521
  else .error ()

/-- Modelled from the spec: `EcCurve::from_str` of the `keys::ecdsa` module
(missing from the source tree), parsing the inner curve identifier string
(`nistp256` and so on); unknown identifiers fail with `UnsupportCurve`. -/
def EcCurve.fromStr (s : List Nat) : Except Unit EcCurve :=
  if s = ascii "nistp256" then .ok .nistp256
  else if s = ascii "nistp384" then .ok .nistp384
  else if s = ascii "nistp521" then .ok .nistp521
  else .error ()

/-- Algorithm-specific private material assembled by the decoder (§4.4);
mpints and strings are kept as their magnitude bytes. -/
inductive KeyPairMaterial where
  | rsa (n e d p q : List Nat) (sig : RsaSig)
  | dsa (p q g y x : List Nat)
  | ecdsa (curve : EcCurve) (pub priv : List Nat)
  | ed25519 (pk sk : List Nat)
  deriving DecidableEq, Repr

/-- The `KeyPair` assembled by `decode_ossh_priv`: the private material plus
the mutable comment set through `comment_mut`. -/
structure KeyPair where
  material : KeyPairMaterial
  comment : List Nat
  deriving DecidableEq, Repr

/-- External collaborators of the codec, abstracted as functions: openssl key
constructors (`RsaPrivateKeyBuilder`, `Dsa::from_private_components`,
`EcDsaKeyPair::from_bytes`, `Ed25519KeyPair::from_bytes`) collapsed into a
success predicate, the `bcrypt_pbkdf` derivation, and the openssl
`Crypter` decryption. -/
structure External where
  buildOk : KeyPairMaterial → Bool
  bcryptPbkdf : List Nat → List Nat → Nat → Nat → Except Unit (List Nat)
  cipherDecrypt : CipherAlg → List Nat → List Nat → List Nat → Except Unit (List Nat)

/-- A concrete instantiation of the external collaborators, used to evaluate
the codec on concrete inputs. -/
def extDummy : External where
  buildOk := fun _ => true
  bcryptPbkdf := fun _ _ _ n => .ok (List.replicate n 0)
  cipherDecrypt := fun _ _ _ data => .ok data

/-- Observable external actions performed by `decrypt_ossh_priv`: a
`bcrypt_pbkdf` invocation and a symmetric decryption. -/
inductive Ev where
  | bcrypt (pass salt : List Nat) (rounds outLen : Nat)
  | cipherRun (alg : CipherAlg) (key iv data : List Nat)
  deriving DecidableEq, Repr

/-- Errors of `decrypt_ossh_priv`, one constructor per `return Err` site of
lines 110-184 of `ossh_privkey.rs`. -/
inductive DErr where
  | unsupportCipherName
  | incorrectPass
  | unsupportKdfName
  | kdfNoneButEncrypted
  | badLength
  | kdfParse (e : WErr)
  | bcryptFail
  | noPassUnknown
  | unsupportCipherInner
  | cipherFail
  deriving DecidableEq, Repr

/-- Error kind returned at each `return Err` site of `decrypt_ossh_priv`. -/
def DErr.kind : DErr → ErrorKind
  | .unsupportCipherName => .UnsupportCipher
  | .incorrectPass => .IncorrectPass
  | .unsupportKdfName => .UnsupportCipher
  | .kdfNoneButEncrypted => .InvalidKeyFormat
  | .badLength => .InvalidKeyFormat
  | .kdfParse e => e.kind
  | .bcryptFail => .InvalidArgument
  | .noPassUnknown => .Unknown
  | .unsupportCipherInner => .UnsupportCipher
  | .cipherFail => .OpenSslError

/-- Shallow embedding of `decrypt_ossh_priv` (lines 110-184 of
`ossh_privkey.rs`).  The second component records the external actions
performed (kdf runs and decryption attempts), in order. -/
def decrypt_ossh_priv (ext : External) (privkey_data : List Nat)
    (passphrase : Option (List Nat)) (ciphername kdfname kdf : List Nat) :
    Except DErr (List Nat) × List Ev :=
  match cipherOfName ciphername with
  | .error _ => (.error .unsupportCipherName, [])
  | .ok cipher =>
    -- Check if empty passphrase but encrypted
    if passHasContent passphrase = false ∧ cipher.isSome = true then
      (.error .incorrectPass, [])
    -- Check kdf type
    else if kdfname ≠ ascii "none" ∧ kdfname ≠ ascii "bcrypt" then
      (.error .unsupportKdfName, [])
    -- Check if no kdf providing but encrypted
    else if kdfname = ascii "none" ∧ cipher.isSome = true then
      (.error .kdfNoneButEncrypted, [])
    else
      let blocksize := blockOf cipher
      if privkey_data.length < blocksize ∨ privkey_data.length % blocksize ≠ 0 then
        (.error .badLength, [])
      else
        match cipher with
        | some c =>
          if kdfname = ascii "bcrypt" then
            match passphrase with
            | some pass =>
              match readString kdf with
              | .error e => (.error (.kdfParse e), [])
              | .ok (salt, r1) =>
                match readUint32 r1 with
                | .error e => (.error (.kdfParse e), [])
                | .ok (round, _) =>
                  let outLen := c.keyLen + c.ivLen
                  match ext.bcryptPbkdf pass salt round outLen with
                  | .error _ => (.error .bcryptFail, [.bcrypt pass salt round outLen])
                  | .ok keyder =>
                    let key := keyder.take c.keyLen
                    let iv := keyder.drop c.keyLen
                    match ext.cipherDecrypt c key iv privkey_data with
                    | .error _ =>
                      (.error .cipherFail,
                       [.bcrypt pass salt round outLen, .cipherRun c key iv privkey_data])
                    | .ok dec =>
                      (.ok dec,
                       [.bcrypt pass salt round outLen, .cipherRun c key iv privkey_data])
            | none =>
              -- Should have already checked passphrase
              (.error .noPassUnknown, [])
          else (.error .unsupportCipherInner, [])
        | none => (.ok privkey_data, [])

/-- Errors of `decode_ossh_priv`, one constructor per failure site of lines
13-108 of `ossh_privkey.rs`; `wire` wraps reader failures, `decryptErr`
wraps failures of `decrypt_ossh_priv`, and `buildFail` collapses the
failures of the external key constructors. -/
inductive DecodeErr where
  | badMagic
  | wire (e : WErr)
  | nkeysNot1
  | decryptErr (e : DErr)
  | checksumMismatch
  | unsupportCurve
  | curveMismatch
  | unsupportType
  | buildFail
  | paddingBad
  deriving DecidableEq, Repr

/-- Error kind returned at each failure site of `decode_ossh_priv`. -/
def DecodeErr.kind : DecodeErr → ErrorKind
  | .badMagic => .InvalidKeyFormat
  | .wire e => e.kind
  | .nkeysNot1 => .InvalidKeyFormat
  | .decryptErr e => e.kind
  | .checksumMismatch => .IncorrectPass
  | .unsupportCurve => .UnsupportCurve
  | .curveMismatch => .TypeNotMatch
  | .unsupportType => .UnsupportType
  | .buildFail => .OpenSslError
  | .paddingBad => .InvalidKeyFormat

/-- The signature variant chosen by the inner `match keyname` of the RSA arm
(lines 56-61). -/
def rsaSigOf (keyname : List Nat) : RsaSig :=
  if keyname = ascii "ssh-rsa" then .sha1
  else if keyname = ascii "rsa-sha2-256" then .sha256
  else .sha512

/-- The per-algorithm dispatch of `decode_ossh_priv` (lines 44-93): reads the
algorithm-specific fields following the key name and assembles the private
material, returning it with the unconsumed remainder of the stream.  The
algorithm name constants are modelled from the spec (§6). -/
def parseKeyMaterial (keyname r : List Nat) :
    Except DecodeErr (KeyPairMaterial × List Nat) :=
  if keyname = ascii "ssh-rsa" ∨ keyname = ascii "rsa-sha2-256" ∨
      keyname = ascii "rsa-sha2-512" then
    match readMpint r with
    | .error e => .error (.wire e)
    | .ok (n, r1) =>
      match readMpint r1 with
      | .error e => .error (.wire e)
      | .ok (e', r2) =>
        match readMpint r2 with
        | .error e => .error (.wire e)
        | .ok (d, r3) =>
          match readMpint r3 with
          | .error e => .error (.wire e)
          | .ok (_iqmp, r4) =>
            match readMpint r4 with
            | .error e => .error (.wire e)
            | .ok (p, r5) =>
              match readMpint r5 with
              | .error e => .error (.wire e)
              | .ok (q, r6) => .ok (.rsa n e' d p q (rsaSigOf keyname), r6)
  else if keyname = ascii "ssh-dss" then
    match readMpint r with
    | .error e => .error (.wire e)
    | .ok (p, r1) =>
      match readMpint r1 with
      | .error e => .error (.wire e)
      | .ok (q, r2) =>
        match readMpint r2 with
        | .error e => .error (.wire e)
        | .ok (g, r3) =>
          match readMpint r3 with
          | .error e => .error (.wire e)
          | .ok (pubkey, r4) =>
            match readMpint r4 with
            | .error e => .error (.wire e)
            | .ok (privkey, r5) => .ok (.dsa p q g pubkey privkey, r5)
  else if keyname = ascii "ecdsa-sha2-nistp256" ∨
      keyname = ascii "ecdsa-sha2-nistp384" ∨
      keyname = ascii "ecdsa-sha2-nistp521" then
    match readUtf8 r with
    | .error e => .error (.wire e)
    | .ok (curvename, r1) =>
      match EcCurve.fromName keyname with
      | .error _ => .error .unsupportCurve
      | .ok curvehint =>
        match EcCurve.fromStr curvename with
        | .error _ => .error .unsupportCurve
        | .ok curve =>
          if curve ≠ curvehint then .error .curveMismatch
          else
            match readString r1 with
            | .error e => .error (.wire e)
            | .ok (pubkey, r2) =>
              match readMpint r2 with
              | .error e => .error (.wire e)
              | .ok (privkey, r3) => .ok (.ecdsa curve pubkey privkey, r3)
  else if keyname = ascii "ssh-ed25519" then
    match readString r with
    | .error e => .error (.wire e)
    | .ok (pk, r1) =>
      match readString r1 with
      | .error e => .error (.wire e)
      | .ok (sk, r2) => .ok (.ed25519 pk sk, r2)
  else .error .unsupportType

/-- The portion of `decode_ossh_priv` from the decrypted plaintext through
the comment (lines 35-95): checksum pair, key name, per-algorithm material,
external construction, and the comment, returning the assembled `KeyPair`
with the unconsumed remainder of the stream. -/
def parseSecretBody (ext : External) (dec : List Nat) :
    Except DecodeErr (KeyPair × List Nat) :=
  match readUint32 dec with
  | .error e => .error (.wire e)
  | .ok (checksum0, r1) =>
    match readUint32 r1 with
    | .error e => .error (.wire e)
    | .ok (checksum1, r2) =>
      if checksum0 ≠ checksum1 then .error .checksumMismatch
      else
        match readUtf8 r2 with
        | .error e => .error (.wire e)
        | .ok (keyname, r3) =>
          match parseKeyMaterial keyname r3 with
          | .error e => .error e
          | .ok (mat, r4) =>
            if ext.buildOk mat then
              match readUtf8 r4 with
              | .error e => .error (.wire e)
              | .ok (comment, r5) => .ok (⟨mat, comment⟩, r5)
            else .error .buildFail

/-- The padding loop of lines 98-102: byte at (0-based) offset `i` of the
remainder must equal `(i+1) & 0xff`, that is `(i+1) % 256`; the first
argument is the number of bytes already consumed by the loop. -/
def paddingOk (i : Nat) : List Nat → Bool
  | [] => true
  | b :: rest => ((i + 1) % 256 == b) && paddingOk (i + 1) rest

/-- The whole processing of the decrypted plaintext (lines 35-104): parse
through the comment, then check the trailing padding. -/
def parseSecret (ext : External) (dec : List Nat) : Except DecodeErr KeyPair :=
  match parseSecretBody ext dec with
  | .error e => .error e
  | .ok (keypair, rest) =>
    if paddingOk 0 rest then .ok keypair else .error .paddingBad

/-- The fifteen magic bytes `"openssh-key-v1\0"`. -/
def magicBytes : List Nat := ascii "openssh-key-v1" ++ [0]

/-- The outer walk of `decode_ossh_priv` up to and including decryption
(lines 14-34): magic check, header fields, `nkeys == 1`, skipped public
blob, ciphertext, and the call to `decrypt_ossh_priv`, producing the
decrypted inner plaintext. -/
def innerPlaintext (ext : External) (keydata : List Nat)
    (passphrase : Option (List Nat)) : Except DecodeErr (List Nat) :=
  if 16 ≤ keydata.length ∧ keydata.take 15 = magicBytes then
    match readUtf8 (keydata.drop 15) with
    | .error e => .error (.wire e)
    | .ok (ciphername, r1) =>
      match readUtf8 r1 with
      | .error e => .error (.wire e)
      | .ok (kdfname, r2) =>
        match readString r2 with
        | .error e => .error (.wire e)
        | .ok (kdf, r3) =>
          match readUint32 r3 with
          | .error e => .error (.wire e)
          | .ok (nkeys, r4) =>
            if nkeys ≠ 1 then .error .nkeysNot1
            else
              match readString r4 with -- Skip public keys
              | .error e => .error (.wire e)
              | .ok (_, r5) =>
                match readString r5 with
                | .error e => .error (.wire e)
                | .ok (encrypted, _) =>
                  match (decrypt_ossh_priv ext encrypted passphrase
                      ciphername kdfname kdf).1 with
                  | .error e => .error (.decryptErr e)
                  | .ok dec => .ok dec
  else .error .badMagic

/-- Shallow embedding of `decode_ossh_priv` (lines 13-108 of
`ossh_privkey.rs`): the outer walk and decryption, then the processing of
the inner plaintext. -/
def decode_ossh_priv (ext : External) (keydata : List Nat)
    (passphrase : Option (List Nat)) : Except DecodeErr KeyPair :=
  match innerPlaintext ext keydata passphrase with
  | .error e => .error e
  | .ok dec => parseSecret ext dec

/-- A name outside the nine supported cipher names falls through the whole
name table. -/
theorem cipherOfName_unsupported {name : List Nat}
    (h : name ∉ supportedCipherNames) : cipherOfName name = .error () := by
  simp only [supportedCipherNames, List.mem_cons, List.not_mem_nil, or_false] at h
  push_neg at h
  obtain ⟨h1, h2, h3, h4, h5, h6, h7, h8, h9⟩ := h
  unfold cipherOfName
  split_ifs <;> first | rfl | tauto

/-- A supported cipher name is accepted by the name table. -/
theorem cipherOfName_supported {name : List Nat}
    (h : name ∈ supportedCipherNames) : ∃ copt, cipherOfName name = .ok copt := by
  simp only [supportedCipherNames, List.mem_cons, List.not_mem_nil, or_false] at h
  rcases h with rfl | rfl | rfl | rfl | rfl | rfl | rfl | rfl | rfl
  · exact ⟨none, by decide⟩
  · exact ⟨some .desEde3Cbc, by decide⟩
  · exact ⟨some .aes128Cbc, by decide⟩
  · exact ⟨some .aes192Cbc, by decide⟩
  · exact ⟨some .aes256Cbc, by decide⟩
  · exact ⟨some .aes256Cbc, by decide⟩
  · exact ⟨some .aes128Ctr, by decide⟩
  · exact ⟨some .aes192Ctr, by decide⟩
  · exact ⟨some .aes256Ctr, by decide⟩

/-- The padding loop succeeds exactly when every remaining byte matches the
`(offset+1) & 0xff` pattern. -/
theorem paddingOk_iff (n : Nat) (l : List Nat) :
    paddingOk n l = true ↔ ∀ i (h : i < l.length), l.get ⟨i, h⟩ = (n + i + 1) % 256 := by
  induction l generalizing n with
  | nil => simp [paddingOk]
  | cons b rest ih =>
    simp only [paddingOk, Bool.and_eq_true, beq_iff_eq, ih]
    constructor
    · rintro ⟨hb, hrest⟩ i hi
      cases i with
      | zero => simpa using hb.symm
      | succ j =>
        have := hrest j (by simpa using Nat.lt_of_succ_lt_succ hi)
        simpa [Nat.add_assoc, Nat.add_comm, Nat.add_left_comm] using this
    · intro hall
      refine ⟨(hall 0 (by simp)).symm, fun j hj => ?_⟩
      have := hall (j + 1) (by simpa using Nat.succ_lt_succ hj)
      simpa [Nat.add_assoc, Nat.add_comm, Nat.add_left_comm] using this

/-- A successful run of `parseSecretBody` begins with two successful 32-bit
reads that return equal values. -/
theorem parseSecretBody_ok_checks {ext : External} {dec : List Nat}
    {x : KeyPair × List Nat} (h : parseSecretBody ext dec = .ok x) :
    ∃ c0 r1 c1 r2, readUint32 dec = .ok (c0, r1) ∧ readUint32 r1 = .ok (c1, r2) ∧
      c0 = c1 := by
  unfold parseSecretBody at h
  split at h
  · exact absurd h (by simp)
  next c0 r1 heq1 =>
    split at h
    · exact absurd h (by simp)
    next c1 r2 heq2 =>
      split at h
      · exact absurd h (by simp)
      next hne => exact ⟨c0, r1, c1, r2, heq1, heq2, not_not.mp hne⟩

/-- A successful run of `parseSecret` factors through a successful
`parseSecretBody` whose remainder passes the padding loop. -/
theorem parseSecret_ok_body {ext : External} {dec : List Nat} {kp : KeyPair}
    (h : parseSecret ext dec = .ok kp) :
    ∃ rest, parseSecretBody ext dec = .ok (kp, rest) ∧ paddingOk 0 rest = true := by
  unfold parseSecret at h
  split at h
  · exact absurd h (by simp)
  next kp0 rest heq =>
    split at h
    · next hpad => exact ⟨rest, by rw [heq]; simpa using h, hpad⟩
    · exact absurd h (by simp)

/-- Once the outer walk has produced the inner plaintext, `decode_ossh_priv`
is exactly the processing of that plaintext. -/
theorem decode_of_inner {ext : External} {keydata dec : List Nat}
    {passphrase : Option (List Nat)}
    (h : innerPlaintext ext keydata passphrase = .ok dec) :
    decode_ossh_priv ext keydata passphrase = parseSecret ext dec := by
  unfold decode_ossh_priv
  rw [h]

/-- C5: for every input byte string whose first 15 bytes are not exactly
`"openssh-key-v1\0"`, `decode_ossh_priv` fails with `InvalidKeyFormat`. -/
theorem decode_bad_magic (ext : External) (keydata : List Nat)
    (passphrase : Option (List Nat)) (h : keydata.take 15 ≠ magicBytes) :
    decode_ossh_priv ext keydata passphrase = .error .badMagic ∧
      DecodeErr.badMagic.kind = .InvalidKeyFormat := by
  unfold decode_ossh_priv innerPlaintext
  rw [if_neg (by tauto)]
  exact ⟨rfl, rfl⟩

/-- Witness for C5 at the concrete input `[1, 2, 3]`. -/
theorem decode_bad_magic_witness :
    ([1, 2, 3] : List Nat).take 15 ≠ magicBytes ∧
      decode_ossh_priv extDummy [1, 2, 3] none = .error .badMagic :=
  ⟨by decide, (decode_bad_magic extDummy [1, 2, 3] none (by decide)).1⟩

/-- C2: for every decrypt call whose container names a supported cipher other
than `"none"`, if the supplied passphrase is absent or empty the operation
fails with `IncorrectPass` and decryption is never attempted (the trace of
external actions is empty). -/
theorem decrypt_empty_pass (ext : External) (data : List Nat)
    (passphrase : Option (List Nat)) (cn kn kdf : List Nat) (c : CipherAlg)
    (hc : cipherOfName cn = .ok (some c))
    (hp : passphrase = none ∨ passphrase = some []) :
    decrypt_ossh_priv ext data passphrase cn kn kdf = (.error .incorrectPass, []) ∧
      DErr.incorrectPass.kind = .IncorrectPass := by
  have hpc : passHasContent passphrase = false := by
    rcases hp with rfl | rfl <;> simp [passHasContent]
  unfold decrypt_ossh_priv
  simp only [hc]
  rw [if_pos ⟨hpc, rfl⟩]
  exact ⟨rfl, rfl⟩

/-- Witness for C2 at a concrete encrypted container with no passphrase. -/
theorem decrypt_empty_pass_witness :
    cipherOfName (ascii "aes128-cbc") = .ok (some .aes128Cbc) ∧
      decrypt_ossh_priv extDummy [1, 2] none (ascii "aes128-cbc") (ascii "bcrypt") []
        = (.error .incorrectPass, []) :=
  ⟨by decide,
   (decrypt_empty_pass extDummy [1, 2] none (ascii "aes128-cbc") (ascii "bcrypt") []
      .aes128Cbc (by decide) (.inl rfl)).1⟩

/-- C9 counterexample: with cipher `"none"`, kdf `"bcrypt"`, a non-empty
passphrase and an unparseable (empty) kdf blob, the decrypt operation
returns the data unchanged with an empty external-action trace: the kdf
blob is never parsed and `bcrypt_pbkdf` is never invoked, contrary to the
claim that the derivation runs. -/
theorem decrypt_none_bcrypt_cex :
    decrypt_ossh_priv extDummy [1, 2, 3, 4, 5, 6, 7, 8] (some (ascii "x"))
      (ascii "none") (ascii "bcrypt") [] = (.ok [1, 2, 3, 4, 5, 6, 7, 8], []) := by
  decide

/-- C9 amended: when the container has cipher `"none"` and kdf `"bcrypt"`,
the decrypt operation skips key derivation entirely (no kdf-blob parse, no
`bcrypt_pbkdf` invocation, no decryption) and returns the data unchanged,
subject only to the length check against block size 8. -/
theorem decrypt_none_bcrypt (ext : External) (data : List Nat)
    (passphrase : Option (List Nat)) (kdf : List Nat)
    (h1 : 8 ≤ data.length) (h2 : data.length % 8 = 0) :
    decrypt_ossh_priv ext data passphrase (ascii "none") (ascii "bcrypt") kdf
      = (.ok data, []) := by
  unfold decrypt_ossh_priv
  simp only [show cipherOfName (ascii "none") = .ok none from by decide]
  rw [if_neg (by simp)]
  rw [if_neg (by decide)]
  rw [if_neg (by decide)]
  rw [if_neg (by simp only [blockOf]; omega)]

/-- Witness for C9 (amended) at a concrete eight-byte input. -/
theorem decrypt_none_bcrypt_witness :
    8 ≤ ([0, 0, 0, 0, 0, 0, 0, 0] : List Nat).length ∧
      decrypt_ossh_priv extDummy [0, 0, 0, 0, 0, 0, 0, 0] none (ascii "none")
        (ascii "bcrypt") [9] = (.ok [0, 0, 0, 0, 0, 0, 0, 0], []) :=
  ⟨by decide,
   decrypt_none_bcrypt extDummy [0, 0, 0, 0, 0, 0, 0, 0] none [9]
     (by decide) (by decide)⟩

/-- C4 counterexample: a zero-length ciphertext with an encrypted cipher and
no passphrase fails with `IncorrectPass`, not `InvalidKeyFormat`: the
passphrase check of line 130 fires before the length check of line 143. -/
theorem decrypt_length_cex :
    (decrypt_ossh_priv extDummy [] none (ascii "aes128-cbc") (ascii "bcrypt") []).1
        = .error .incorrectPass ∧
      DErr.incorrectPass.kind ≠ .InvalidKeyFormat := by
  decide

/-- C4 amended: for every decrypt call that passes the checks preceding the
length check (recognized cipher name, non-empty passphrase whenever the
cipher is not `"none"`, kdf name `"none"` or `"bcrypt"`, and not kdf
`"none"` with an encrypted cipher), a ciphertext length that is not a
positive multiple of the selected cipher's block size (8 when the cipher is
`"none"`) fails with `InvalidKeyFormat`; and a zero-length ciphertext
always fails, though not always with `InvalidKeyFormat`. -/
theorem decrypt_length_check :
    (∀ (ext : External) (data : List Nat) (passphrase : Option (List Nat))
        (cn kn kdf : List Nat) (copt : Option CipherAlg),
        cipherOfName cn = .ok copt →
        (∀ c, copt = some c → passHasContent passphrase = true) →
        (kn = ascii "none" ∨ kn = ascii "bcrypt") →
        ¬(kn = ascii "none" ∧ copt.isSome = true) →
        (data.length < blockOf copt ∨ data.length % blockOf copt ≠ 0) →
        (decrypt_ossh_priv ext data passphrase cn kn kdf).1 = .error .badLength ∧
          DErr.badLength.kind = .InvalidKeyFormat) ∧
    (∀ (ext : External) (passphrase : Option (List Nat)) (cn kn kdf : List Nat),
        ∃ e, (decrypt_ossh_priv ext [] passphrase cn kn kdf).1 = .error e) := by
  constructor
  · intro ext data passphrase cn kn kdf copt hc hp hk hkn hlen
    unfold decrypt_ossh_priv
    simp only [hc]
    rw [if_neg (by
      rintro ⟨hf, hs⟩
      rcases copt with _ | c
      · simp at hs
      · rw [hp c rfl] at hf; cases hf)]
    rw [if_neg (by tauto)]
    rw [if_neg hkn]
    rw [if_pos hlen]
    exact ⟨rfl, rfl⟩
  · intro ext passphrase cn kn kdf
    unfold decrypt_ossh_priv
    cases hcn : cipherOfName cn with
    | error u => exact ⟨.unsupportCipherName, by simp only [hcn]⟩
    | ok copt =>
      simp only [hcn]
      split_ifs with h1 h2 h3 h4 <;>
        first
          | exact ⟨.incorrectPass, rfl⟩
          | exact ⟨.unsupportKdfName, rfl⟩
          | exact ⟨.kdfNoneButEncrypted, rfl⟩
          | exact ⟨.badLength, rfl⟩
          | (exfalso
             apply h4
             left
             rcases copt with _ | c
             · decide
             · cases c <;> decide)

/-- Witness for C4 (amended) at a three-byte ciphertext under AES-128-CBC. -/
theorem decrypt_length_check_witness :
    (decrypt_ossh_priv extDummy [1, 2, 3] (some [120]) (ascii "aes128-cbc")
        (ascii "bcrypt") []).1 = .error .badLength ∧
      ∃ e, (decrypt_ossh_priv extDummy [] (some [120]) (ascii "aes128-cbc")
        (ascii "bcrypt") []).1 = .error e :=
  ⟨(decrypt_length_check.1 extDummy [1, 2, 3] (some [120]) (ascii "aes128-cbc")
      (ascii "bcrypt") [] (some .aes128Cbc) (by decide)
      (fun c _ => by decide) (.inr rfl) (by decide) (by decide)).1,
   decrypt_length_check.2 extDummy (some [120]) (ascii "aes128-cbc")
      (ascii "bcrypt") []⟩

/-- C6 counterexample: with kdf `"none"`, an encrypted cipher and no
passphrase, decrypt fails with `IncorrectPass`, not `InvalidKeyFormat`: the
passphrase check of line 130 fires before the kdf checks of lines
134-140. -/
theorem decrypt_kdf_checks_cex :
    (decrypt_ossh_priv extDummy [] none (ascii "aes128-cbc") (ascii "none") []).1
        = .error .incorrectPass ∧
      DErr.incorrectPass.kind ≠ .InvalidKeyFormat := by
  decide

/-- C6 amended: provided the passphrase check does not fire first (a
non-empty passphrase accompanies any encrypted cipher): if kdf_name is
`"none"` and the cipher is a recognized cipher other than `"none"`, the
operation fails with `InvalidKeyFormat`; and if kdf_name is neither
`"none"` nor `"bcrypt"`, it fails with `UnsupportCipher`. -/
theorem decrypt_kdf_checks :
    (∀ (ext : External) (data : List Nat) (passphrase : Option (List Nat))
        (cn kn kdf : List Nat) (c : CipherAlg),
        cipherOfName cn = .ok (some c) → passHasContent passphrase = true →
        kn = ascii "none" →
        (decrypt_ossh_priv ext data passphrase cn kn kdf).1
            = .error .kdfNoneButEncrypted ∧
          DErr.kdfNoneButEncrypted.kind = .InvalidKeyFormat) ∧
    (∀ (ext : External) (data : List Nat) (passphrase : Option (List Nat))
        (cn kn kdf : List Nat),
        (∀ c, cipherOfName cn = .ok (some c) → passHasContent passphrase = true) →
        kn ≠ ascii "none" → kn ≠ ascii "bcrypt" →
        ∃ e, (decrypt_ossh_priv ext data passphrase cn kn kdf).1 = .error e ∧
          e.kind = .UnsupportCipher) := by
  constructor
  · intro ext data passphrase cn kn kdf c hc hp hk
    subst hk
    unfold decrypt_ossh_priv
    simp only [hc]
    split_ifs with h1 h2 h3 <;>
      first
        | exact ⟨rfl, rfl⟩
        | (rw [hp] at h1; cases h1.1)
        | exact (h2.1 rfl).elim
        | exact absurd (by simp) h3
  · intro ext data passphrase cn kn kdf hp hn hb
    unfold decrypt_ossh_priv
    cases hcn : cipherOfName cn with
    | error u => exact ⟨.unsupportCipherName, by simp only [hcn], rfl⟩
    | ok copt =>
      simp only [hcn]
      rcases copt with _ | c
      · rw [if_neg (by simp)]
        rw [if_pos ⟨hn, hb⟩]
        exact ⟨.unsupportKdfName, rfl, rfl⟩
      · rw [if_neg (by rintro ⟨hf, _⟩; rw [hp c hcn] at hf; cases hf)]
        rw [if_pos ⟨hn, hb⟩]
        exact ⟨.unsupportKdfName, rfl, rfl⟩

/-- Witness for C6 (amended): kdf `"none"` under AES-128-CBC with a
passphrase, and an unknown kdf name `"foo"`. -/
theorem decrypt_kdf_checks_witness :
    (decrypt_ossh_priv extDummy [1, 2] (some [120]) (ascii "aes128-cbc")
        (ascii "none") []).1 = .error .kdfNoneButEncrypted ∧
      ∃ e, (decrypt_ossh_priv extDummy [] (some [120]) (ascii "aes128-cbc")
        (ascii "foo") []).1 = .error e ∧ e.kind = .UnsupportCipher :=
  ⟨(decrypt_kdf_checks.1 extDummy [1, 2] (some [120]) (ascii "aes128-cbc")
      (ascii "none") [] .aes128Cbc (by decide) (by decide) rfl).1,
   decrypt_kdf_checks.2 extDummy [] (some [120]) (ascii "aes128-cbc")
      (ascii "foo") [] (fun c _ => by decide) (by decide) (by decide)⟩

/-- C7: the decrypt operation accepts exactly the nine cipher names of the
table, mapping `rijndael-cbc@lysator.liu.se` to the same algorithm as
`aes256-cbc`, and fails with `UnsupportCipher` for every other name. -/
theorem decrypt_cipher_table :
    (cipherOfName (ascii "none") = .ok none ∧
     cipherOfName (ascii "3des-cbc") = .ok (some .desEde3Cbc) ∧
     cipherOfName (ascii "aes128-cbc") = .ok (some .aes128Cbc) ∧
     cipherOfName (ascii "aes192-cbc") = .ok (some .aes192Cbc) ∧
     cipherOfName (ascii "aes256-cbc") = .ok (some .aes256Cbc) ∧
     cipherOfName (ascii "rijndael-cbc@lysator.liu.se") = .ok (some .aes256Cbc) ∧
     cipherOfName (ascii "aes128-ctr") = .ok (some .aes128Ctr) ∧
     cipherOfName (ascii "aes192-ctr") = .ok (some .aes192Ctr) ∧
     cipherOfName (ascii "aes256-ctr") = .ok (some .aes256Ctr)) ∧
    (∀ (ext : External) (data : List Nat) (passphrase : Option (List Nat))
        (name kn kdf : List Nat), name ∉ supportedCipherNames →
        decrypt_ossh_priv ext data passphrase name kn kdf
            = (.error .unsupportCipherName, []) ∧
          DErr.unsupportCipherName.kind = .UnsupportCipher) ∧
    (∀ (ext : External) (data : List Nat) (passphrase : Option (List Nat))
        (name kn kdf : List Nat), name ∈ supportedCipherNames →
        (decrypt_ossh_priv ext data passphrase name kn kdf).1
          ≠ .error .unsupportCipherName) := by
  refine ⟨by decide, ?_, ?_⟩
  · intro ext data passphrase name kn kdf h
    unfold decrypt_ossh_priv
    rw [cipherOfName_unsupported h]
    exact ⟨rfl, rfl⟩
  · intro ext data passphrase name kn kdf h
    obtain ⟨copt, hcn⟩ := cipherOfName_supported h
    unfold decrypt_ossh_priv
    simp only [hcn]
    repeat' split
    all_goals simp

/-- Witness for C7 at the unknown name `"foo"` and the known name
`"none"`. -/
theorem decrypt_cipher_table_witness :
    decrypt_ossh_priv extDummy [] none (ascii "foo") (ascii "none") []
        = (.error .unsupportCipherName, []) ∧
      (decrypt_ossh_priv extDummy [1, 2, 3, 4, 5, 6, 7, 8] none (ascii "none")
        (ascii "none") []).1 ≠ .error .unsupportCipherName :=
  ⟨(decrypt_cipher_table.2.1 extDummy [] none (ascii "foo") (ascii "none") []
      (by decide)).1,
   decrypt_cipher_table.2.2 extDummy [1, 2, 3, 4, 5, 6, 7, 8] none (ascii "none")
      (ascii "none") [] (by decide)⟩

/-- C10: the `Unknown` branch (bcrypt kdf with no passphrase, line 160) and
the inner `UnsupportCipher` branch (line 164) of `decrypt_ossh_priv` are
unreachable: no input makes the operation return either error. -/
theorem decrypt_unreachable_branches (ext : External) (data : List Nat)
    (passphrase : Option (List Nat)) (cn kn kdf : List Nat) :
    (decrypt_ossh_priv ext data passphrase cn kn kdf).1 ≠ .error .noPassUnknown ∧
      (decrypt_ossh_priv ext data passphrase cn kn kdf).1
        ≠ .error .unsupportCipherInner := by
  constructor
  · intro h
    unfold decrypt_ossh_priv at h
    cases hcn : cipherOfName cn <;> simp only [hcn] at h
    · simp at h
    next copt =>
      split_ifs at h with h1 h2 h3 h4 hb
      · simp at h
      · simp at h
      · simp at h
      · simp at h
      · rcases copt with _ | c
        · simp at h
        · rcases passphrase with _ | pass
          · exact h1 ⟨rfl, rfl⟩
          · rcases hr : readString kdf with e | ⟨salt, r1⟩ <;> simp only [hr] at h
            · simp at h
            · rcases hu : readUint32 r1 with e | ⟨round, r2⟩ <;> simp only [hu] at h
              · simp at h
              · rcases hbc : ext.bcryptPbkdf pass salt round (c.keyLen + c.ivLen)
                  with u | keyder <;> simp only [hbc] at h
                · simp at h
                · rcases hcd : ext.cipherDecrypt c (keyder.take c.keyLen)
                      (keyder.drop c.keyLen) data
                    with u | dec <;> simp only [hcd] at h <;> simp at h
      · rcases copt with _ | c <;> simp at h
  · intro h
    unfold decrypt_ossh_priv at h
    cases hcn : cipherOfName cn <;> simp only [hcn] at h
    · simp at h
    next copt =>
      split_ifs at h with h1 h2 h3 h4 hb
      · simp at h
      · simp at h
      · simp at h
      · simp at h
      · rcases copt with _ | c
        · simp at h
        · rcases passphrase with _ | pass
          · exact h1 ⟨rfl, rfl⟩
          · rcases hr : readString kdf with e | ⟨salt, r1⟩ <;> simp only [hr] at h
            · simp at h
            · rcases hu : readUint32 r1 with e | ⟨round, r2⟩ <;> simp only [hu] at h
              · simp at h
              · rcases hbc : ext.bcryptPbkdf pass salt round (c.keyLen + c.ivLen)
                  with u | keyder <;> simp only [hbc] at h
                · simp at h
                · rcases hcd : ext.cipherDecrypt c (keyder.take c.keyLen)
                      (keyder.drop c.keyLen) data
                    with u | dec <;> simp only [hcd] at h <;> simp at h
      · rcases copt with _ | c
        · simp at h
        · have hn : kn = ascii "none" := by tauto
          exact h3 ⟨hn, rfl⟩

/-- Witness for C10 at a concrete input. -/
theorem decrypt_unreachable_branches_witness :
    (decrypt_ossh_priv extDummy [] none (ascii "aes128-cbc") (ascii "bcrypt")
        []).1 ≠ .error .noPassUnknown ∧
      (decrypt_ossh_priv extDummy [] none (ascii "aes128-cbc") (ascii "bcrypt")
        []).1 ≠ .error .unsupportCipherInner :=
  decrypt_unreachable_branches extDummy [] none (ascii "aes128-cbc")
    (ascii "bcrypt") []

/-- C1: for every successfully decoded container the two leading 32-bit
check values of the decrypted inner plaintext are equal; and whenever the
decoder reaches the checksum step and reads two unequal 32-bit values it
returns `IncorrectPass` and no `KeyPair`. -/
theorem decode_checksum :
    (∀ (ext : External) (keydata : List Nat) (passphrase : Option (List Nat))
        (kp : KeyPair), decode_ossh_priv ext keydata passphrase = .ok kp →
        ∃ dec c0 r1 c1 r2, innerPlaintext ext keydata passphrase = .ok dec ∧
          readUint32 dec = .ok (c0, r1) ∧ readUint32 r1 = .ok (c1, r2) ∧
          c0 = c1) ∧
    (∀ (ext : External) (keydata dec : List Nat) (passphrase : Option (List Nat))
        (c0 c1 : Nat) (r1 r2 : List Nat),
        innerPlaintext ext keydata passphrase = .ok dec →
        readUint32 dec = .ok (c0, r1) → readUint32 r1 = .ok (c1, r2) →
        c0 ≠ c1 →
        decode_ossh_priv ext keydata passphrase = .error .checksumMismatch ∧
          DecodeErr.checksumMismatch.kind = .IncorrectPass) := by
  constructor
  · intro ext keydata passphrase kp h
    unfold decode_ossh_priv at h
    split at h
    · exact absurd h (by simp)
    next dec hinner =>
      obtain ⟨rest, hbody, _⟩ := parseSecret_ok_body h
      obtain ⟨c0, r1, c1, r2, h1, h2, hc⟩ := parseSecretBody_ok_checks hbody
      exact ⟨dec, c0, r1, c1, r2, hinner, h1, h2, hc⟩
  · intro ext keydata dec passphrase c0 c1 r1 r2 hinner h1 h2 hne
    rw [decode_of_inner hinner]
    unfold parseSecret parseSecretBody
    simp only [h1, h2]
    rw [if_pos hne]
    exact ⟨rfl, rfl⟩

/-- Witness for C1: a successful plaintext Ed25519 container, and a
container whose decrypted plaintext starts with the unequal check pair
`0, 1`. -/
theorem decode_checksum_witness :
    (∃ dec c0 r1 c1 r2,
      innerPlaintext extDummy
        (magicBytes ++ [0, 0, 0, 4] ++ ascii "none" ++ [0, 0, 0, 4] ++
         ascii "none" ++ [0, 0, 0, 0] ++ [0, 0, 0, 1] ++ [0, 0, 0, 0] ++
         [0, 0, 0, 40] ++
         ([0, 0, 0, 0, 0, 0, 0, 0] ++ [0, 0, 0, 11] ++ ascii "ssh-ed25519" ++
          [0, 0, 0, 0] ++ [0, 0, 0, 0] ++ [0, 0, 0, 0] ++ [1, 2, 3, 4, 5])) none
        = .ok dec ∧
      readUint32 dec = .ok (c0, r1) ∧ readUint32 r1 = .ok (c1, r2) ∧ c0 = c1) ∧
    decode_ossh_priv extDummy
      (magicBytes ++ [0, 0, 0, 4] ++ ascii "none" ++ [0, 0, 0, 4] ++
       ascii "none" ++ [0, 0, 0, 0] ++ [0, 0, 0, 1] ++ [0, 0, 0, 0] ++
       [0, 0, 0, 8] ++ [0, 0, 0, 0, 0, 0, 0, 1]) none
      = .error .checksumMismatch :=
  ⟨decode_checksum.1 extDummy
     (magicBytes ++ [0, 0, 0, 4] ++ ascii "none" ++ [0, 0, 0, 4] ++
      ascii "none" ++ [0, 0, 0, 0] ++ [0, 0, 0, 1] ++ [0, 0, 0, 0] ++
      [0, 0, 0, 40] ++
      ([0, 0, 0, 0, 0, 0, 0, 0] ++ [0, 0, 0, 11] ++ ascii "ssh-ed25519" ++
       [0, 0, 0, 0] ++ [0, 0, 0, 0] ++ [0, 0, 0, 0] ++ [1, 2, 3, 4, 5])) none
     ⟨.ed25519 [] [], []⟩ (by decide),
   (decode_checksum.2 extDummy
     (magicBytes ++ [0, 0, 0, 4] ++ ascii "none" ++ [0, 0, 0, 4] ++
      ascii "none" ++ [0, 0, 0, 0] ++ [0, 0, 0, 1] ++ [0, 0, 0, 0] ++
      [0, 0, 0, 8] ++ [0, 0, 0, 0, 0, 0, 0, 1])
     [0, 0, 0, 0, 0, 0, 0, 1] none 0 1 [0, 0, 0, 1] []
     (by decide) (by decide) (by decide) (by decide)).1⟩

/-- C3: the decoder succeeds only if every byte remaining after the comment
satisfies `remaining[i] = (i+1) & 0xff`, otherwise it fails with
`InvalidKeyFormat`; and a plaintext container (cipher and kdf both
`"none"`) passes through decryption unchanged, so the same padding check
applies to it. -/
theorem decode_padding :
    (∀ (ext : External) (keydata : List Nat) (passphrase : Option (List Nat))
        (kp : KeyPair), decode_ossh_priv ext keydata passphrase = .ok kp →
        ∃ dec rest, innerPlaintext ext keydata passphrase = .ok dec ∧
          parseSecretBody ext dec = .ok (kp, rest) ∧
          ∀ i (h : i < rest.length), rest.get ⟨i, h⟩ = (i + 1) % 256) ∧
    (∀ (ext : External) (keydata dec : List Nat) (passphrase : Option (List Nat))
        (kp : KeyPair) (rest : List Nat),
        innerPlaintext ext keydata passphrase = .ok dec →
        parseSecretBody ext dec = .ok (kp, rest) → paddingOk 0 rest = false →
        decode_ossh_priv ext keydata passphrase = .error .paddingBad ∧
          DecodeErr.paddingBad.kind = .InvalidKeyFormat) ∧
    (∀ (ext : External) (data kdf : List Nat) (passphrase : Option (List Nat)),
        8 ≤ data.length → data.length % 8 = 0 →
        (decrypt_ossh_priv ext data passphrase (ascii "none") (ascii "none")
          kdf).1 = .ok data) := by
  refine ⟨?_, ?_, ?_⟩
  · intro ext keydata passphrase kp h
    unfold decode_ossh_priv at h
    split at h
    · exact absurd h (by simp)
    next dec hinner =>
      obtain ⟨rest, hbody, hpad⟩ := parseSecret_ok_body h
      refine ⟨dec, rest, hinner, hbody, fun i hi => ?_⟩
      have := (paddingOk_iff 0 rest).mp hpad i hi
      simpa using this
  · intro ext keydata dec passphrase kp rest hinner hbody hpad
    rw [decode_of_inner hinner]
    unfold parseSecret
    simp only [hbody]
    rw [if_neg (by simp [hpad])]
    exact ⟨rfl, rfl⟩
  · intro ext data kdf passphrase h1 h2
    unfold decrypt_ossh_priv
    simp only [show cipherOfName (ascii "none") = .ok none from by decide]
    rw [if_neg (by simp)]
    rw [if_neg (by decide)]
    rw [if_neg (by decide)]
    rw [if_neg (by simp only [blockOf]; omega)]

/-- Witness for C3: a successful container with padding `1..5`, a container
whose padding bytes are `9,9,9,9,9`, and a plaintext decrypt of eight
zero bytes. -/
theorem decode_padding_witness :
    (∃ dec rest,
      innerPlaintext extDummy
        (magicBytes ++ [0, 0, 0, 4] ++ ascii "none" ++ [0, 0, 0, 4] ++
         ascii "none" ++ [0, 0, 0, 0] ++ [0, 0, 0, 1] ++ [0, 0, 0, 0] ++
         [0, 0, 0, 40] ++
         ([0, 0, 0, 0, 0, 0, 0, 0] ++ [0, 0, 0, 11] ++ ascii "ssh-ed25519" ++
          [0, 0, 0, 0] ++ [0, 0, 0, 0] ++ [0, 0, 0, 0] ++ [1, 2, 3, 4, 5])) none
        = .ok dec ∧
      parseSecretBody extDummy dec = .ok (⟨.ed25519 [] [], []⟩, rest) ∧
      ∀ i (h : i < rest.length), rest.get ⟨i, h⟩ = (i + 1) % 256) ∧
    decode_ossh_priv extDummy
      (magicBytes ++ [0, 0, 0, 4] ++ ascii "none" ++ [0, 0, 0, 4] ++
       ascii "none" ++ [0, 0, 0, 0] ++ [0, 0, 0, 1] ++ [0, 0, 0, 0] ++
       [0, 0, 0, 40] ++
       ([0, 0, 0, 0, 0, 0, 0, 0] ++ [0, 0, 0, 11] ++ ascii "ssh-ed25519" ++
        [0, 0, 0, 0] ++ [0, 0, 0, 0] ++ [0, 0, 0, 0] ++ [9, 9, 9, 9, 9])) none
      = .error .paddingBad ∧
    (decrypt_ossh_priv extDummy [0, 0, 0, 0, 0, 0, 0, 0] none (ascii "none")
      (ascii "none") []).1 = .ok [0, 0, 0, 0, 0, 0, 0, 0] :=
  ⟨decode_padding.1 extDummy
     (magicBytes ++ [0, 0, 0, 4] ++ ascii "none" ++ [0, 0, 0, 4] ++
      ascii "none" ++ [0, 0, 0, 0] ++ [0, 0, 0, 1] ++ [0, 0, 0, 0] ++
      [0, 0, 0, 40] ++
      ([0, 0, 0, 0, 0, 0, 0, 0] ++ [0, 0, 0, 11] ++ ascii "ssh-ed25519" ++
       [0, 0, 0, 0] ++ [0, 0, 0, 0] ++ [0, 0, 0, 0] ++ [1, 2, 3, 4, 5])) none
     ⟨.ed25519 [] [], []⟩ (by decide),
   (decode_padding.2.1 extDummy
     (magicBytes ++ [0, 0, 0, 4] ++ ascii "none" ++ [0, 0, 0, 4] ++
      ascii "none" ++ [0, 0, 0, 0] ++ [0, 0, 0, 1] ++ [0, 0, 0, 0] ++
      [0, 0, 0, 40] ++
      ([0, 0, 0, 0, 0, 0, 0, 0] ++ [0, 0, 0, 11] ++ ascii "ssh-ed25519" ++
       [0, 0, 0, 0] ++ [0, 0, 0, 0] ++ [0, 0, 0, 0] ++ [9, 9, 9, 9, 9]))
     ([0, 0, 0, 0, 0, 0, 0, 0] ++ [0, 0, 0, 11] ++ ascii "ssh-ed25519" ++
      [0, 0, 0, 0] ++ [0, 0, 0, 0] ++ [0, 0, 0, 0] ++ [9, 9, 9, 9, 9]) none
     ⟨.ed25519 [] [], []⟩ [9, 9, 9, 9, 9]
     (by decide) (by decide) (by decide)).1,
   decode_padding.2.2 extDummy [0, 0, 0, 0, 0, 0, 0, 0] [] none
     (by decide) (by decide)⟩

/-- C8: when the inner key name is one of the three ECDSA names, the decoder
reads the inner curve name string and fails with `TypeNotMatch` whenever
that string denotes a recognized curve different from the curve implied by
the key name. -/
theorem decode_ecdsa_curve_mismatch :
    ∀ (ext : External) (keydata dec : List Nat) (passphrase : Option (List Nat))
      (c0 c1 : Nat) (r1 r2 keyname r3 curvename r4 : List Nat)
      (hint curve : EcCurve),
      readUint32 dec = .ok (c0, r1) → readUint32 r1 = .ok (c1, r2) → c0 = c1 →
      readUtf8 r2 = .ok (keyname, r3) →
      (keyname = ascii "ecdsa-sha2-nistp256" ∨
        keyname = ascii "ecdsa-sha2-nistp384" ∨
        keyname = ascii "ecdsa-sha2-nistp521") →
      readUtf8 r3 = .ok (curvename, r4) →
      EcCurve.fromName keyname = .ok hint →
      EcCurve.fromStr curvename = .ok curve → curve ≠ hint →
      parseSecret ext dec = .error .curveMismatch ∧
        (innerPlaintext ext keydata passphrase = .ok dec →
          decode_ossh_priv ext keydata passphrase = .error .curveMismatch) ∧
        DecodeErr.curveMismatch.kind = .TypeNotMatch := by
  intro ext keydata dec passphrase c0 c1 r1 r2 keyname r3 curvename r4 hint curve
    h1 h2 hc h3 hk h4 hhint hcv hne
  have hps : parseSecret ext dec = .error .curveMismatch := by
    unfold parseSecret parseSecretBody parseKeyMaterial
    simp only [h1, h2]
    rw [if_neg (by simp [hc])]
    simp only [h3]
    rcases hk with rfl | rfl | rfl <;>
    · rw [if_neg (by decide), if_neg (by decide), if_pos (by decide)]
      simp only [h4, hhint, hcv]
      rw [if_pos hne]
  exact ⟨hps, fun hinner => by rw [decode_of_inner hinner]; exact hps, rfl⟩

/-- Witness for C8: a plaintext whose key name is `ecdsa-sha2-nistp256` but
whose inner curve string is `nistp384`. -/
theorem decode_ecdsa_curve_mismatch_witness :
    parseSecret extDummy
      ([0, 0, 0, 0, 0, 0, 0, 0] ++ [0, 0, 0, 19] ++ ascii "ecdsa-sha2-nistp256" ++
       [0, 0, 0, 8] ++ ascii "nistp384") = .error .curveMismatch :=
  (decode_ecdsa_curve_mismatch extDummy []
     ([0, 0, 0, 0, 0, 0, 0, 0] ++ [0, 0, 0, 19] ++ ascii "ecdsa-sha2-nistp256" ++
      [0, 0, 0, 8] ++ ascii "nistp384") none 0 0
     ([0, 0, 0, 0] ++ [0, 0, 0, 19] ++ ascii "ecdsa-sha2-nistp256" ++
      [0, 0, 0, 8] ++ ascii "nistp384")
     ([0, 0, 0, 19] ++ ascii "ecdsa-sha2-nistp256" ++ [0, 0, 0, 8] ++
      ascii "nistp384")
     (ascii "ecdsa-sha2-nistp256")
     ([0, 0, 0, 8] ++ ascii "nistp384") (ascii "nistp384") []
     .nistp256 .nistp384
     (by decide) (by decide) rfl (by decide) (.inl rfl) (by decide)
     (by decide) (by decide) (by decide)).1

end Osshkeys
